import Mathlib

/-!
Verification of the React migration CLI tool (`src/index.ts`).

The development shallowly embeds the tool's pure core: the dependency
resolver (`updateDependencies`, `getReactRelatedPackages` and the version
lookup tables), the regex-based rewrite pipeline (`transformFile` and the
five rule functions), the precondition checks (`analyzeProject`, the CLI
target-version guard) and, from the extended variant of the tool, the
peer-dependency compatibility check (`analyzePeerDependencies`,
`isVersionCompatible`).

Modelling conventions:
* JavaScript objects holding `name -> version-range` pairs become ordered
  association lists (`JsObj`); property reads, truthiness tests and
  assignments are modelled by `jsGet`, `truthy` and `jsAssign`.
* Strings are processed on their underlying `List Char`.  Each JavaScript
  regular expression used by the tool is hand-compiled into an explicit
  matcher with the same backtracking behaviour (leftmost match, ordered
  alternation, lazy and greedy repetition as in the source pattern);
  `String.replace` with a string pattern becomes `replaceFirstSub` (first
  occurrence only) and replacement under a `/g` regex becomes `scanReplace`
  (leftmost matches, continue after the matched text, replacements are not
  rescanned).
* `parseInt` is modelled for decimal inputs (optional leading whitespace
  and sign); a result of JavaScript `NaN` becomes `none`.
* File-system effects are modelled by explicit state: the manifest and the
  discovered source files.  The external package installer is an abstract
  parameter (`installErr`): `none` means `npm install` succeeded.  Source
  file paths are assumed distinct, as produced by the directory traversal.
-/

set_option maxRecDepth 4096

namespace KdMigrate

/-! ## JavaScript string and object primitives -/

/-- Boolean prefix test on character lists. -/
def prefixOfB : List Char → List Char → Bool
  | [], _ => true
  | _ :: _, [] => false
  | p :: ps, c :: cs => p == c && prefixOfB ps cs

/-- JavaScript `String.prototype.includes`: does `hay` contain `pat`. -/
def containsSub (pat : List Char) : List Char → Bool
  | [] => prefixOfB pat []
  | c :: t => prefixOfB pat (c :: t) || containsSub pat t

/-- `includes` on `String`. -/
def strContains (s pat : String) : Bool := containsSub pat.data s.data

/-- JavaScript `String.prototype.replace` with a plain-string pattern:
replaces the first occurrence only. -/
def replaceFirstSub (pat rep : List Char) : List Char → List Char
  | [] => []
  | c :: t =>
    if prefixOfB pat (c :: t) then rep ++ t.drop (pat.length - 1)
    else c :: replaceFirstSub pat rep t

/-- String wrapper for `replaceFirstSub`. -/
def replaceFirstStr (s pat rep : String) : String :=
  String.mk (replaceFirstSub pat.data rep.data s.data)

/-- Worker for global literal replacement.  The fuel argument only makes
the recursion structural (so that proofs can evaluate the function by
reduction); every step consumes at least one character, so a call with
`fuel = s.length` never exhausts it. -/
def replaceAllAux (pat rep : List Char) : Nat → List Char → List Char
  | _, [] => []
  | 0, s => s
  | fuel + 1, c :: t =>
    if prefixOfB pat (c :: t) then
      rep ++ replaceAllAux pat rep fuel (t.drop (pat.length - 1))
    else c :: replaceAllAux pat rep fuel t

/-- Replacement under a global regex made of a plain literal: every
occurrence, scanning left to right, continuing after each match. -/
def replaceAllSub (pat rep s : List Char) : List Char :=
  replaceAllAux pat rep s.length s

/-- Worker for generic global-regex replacement; fuel as in
`replaceAllAux`. -/
def scanReplaceAux (matchAt : List Char → Option (List Char × Nat)) :
    Nat → List Char → List Char
  | _, [] => []
  | 0, s => s
  | fuel + 1, c :: t =>
    match matchAt (c :: t) with
    | some (rep, n) => rep ++ scanReplaceAux matchAt fuel (t.drop (n - 1))
    | none => c :: scanReplaceAux matchAt fuel t

/-- Generic global-regex replacement: `matchAt s` returns the replacement
text and the number of characters the match consumed when the regex matches
at the head of `s`.  Scanning is leftmost-first and resumes after the
matched text, as for a JavaScript `/g` replace. -/
def scanReplace (matchAt : List Char → Option (List Char × Nat)) (s : List Char) :
    List Char :=
  scanReplaceAux matchAt s.length s

/-- Generic regex test: does the pattern match at some position. -/
def scanTest (matchAt : List Char → Option (List Char × Nat)) : List Char → Bool
  | [] => false
  | c :: t => (matchAt (c :: t)).isSome || scanTest matchAt t

/-- First match of a regex, returning the matcher's payload. -/
def firstMatch {α : Type} (matchAt : List Char → Option α) : List Char → Option α
  | [] => none
  | c :: t =>
    match matchAt (c :: t) with
    | some x => some x
    | none => firstMatch matchAt t

/-- JavaScript string comparison (`<` on code units), restricted to the
character lists of the compared strings. -/
def listStrLt : List Char → List Char → Bool
  | [], [] => false
  | [], _ :: _ => true
  | _ :: _, [] => false
  | a :: as, b :: bs =>
    if a.toNat < b.toNat then true
    else if b.toNat < a.toNat then false
    else listStrLt as bs

/-- JavaScript `a >= b` on strings. -/
def jsStrGe (a b : String) : Bool := !(listStrLt a.data b.data)

/-- ASCII whitespace recognised by the regex class `\s`. -/
def isJsWS (c : Char) : Bool :=
  c == ' ' || c == '\t' || c == '\n' || c == '\r' || c == '\x0b' || c == '\x0c'

/-! ## JavaScript objects as ordered association lists -/

/-- A JavaScript object used as a `string -> string` record. -/
abbrev JsObj := List (String × String)

/-- Property read `obj?.[k]` (the first binding of the key; JavaScript
objects hold each key once). -/
def jsGet : JsObj → String → Option String
  | [], _ => none
  | p :: t, k => if p.1 == k then some p.2 else jsGet t k

/-- JavaScript truthiness of a possibly-missing string value: `undefined`
and the empty string are falsy. -/
def truthy : Option String → Bool
  | none => false
  | some s => !(s == "")

/-- Property assignment `obj[k] = v`: replaces the value in place when the
key exists, otherwise appends the pair (JavaScript objects keep insertion
order). -/
def jsAssign (m : JsObj) (k v : String) : JsObj :=
  if m.any (fun p => p.1 == k) then
    m.map (fun p => if p.1 == k then (p.1, v) else p)
  else m ++ [(k, v)]

/-- The guarded assignment pattern `if (obj?.[k]) obj[k] = v` used
throughout `updateDependencies`. -/
def setIfTruthy (m : JsObj) (k v : String) : JsObj :=
  if truthy (jsGet m k) then jsAssign m k v else m

/-! ### Lemmas about the object primitives -/

theorem jsGet_eq_none_iff (m : JsObj) (k : String) :
    jsGet m k = none ↔ m.any (fun p => p.1 == k) = false := by
  induction m with
  | nil => simp [jsGet]
  | cons p t ih =>
    by_cases h : p.1 == k
    · simp [jsGet, h]
    · simpa [jsGet, h] using ih

theorem any_of_truthy {m : JsObj} {k : String} (h : truthy (jsGet m k) = true) :
    m.any (fun p => p.1 == k) = true := by
  rcases hg : jsGet m k with _ | v
  · rw [hg] at h; simp [truthy] at h
  · by_contra hany
    have hfalse : m.any (fun p => p.1 == k) = false := by
      cases hq : m.any (fun p => p.1 == k)
      · rfl
      · exact absurd hq hany
    have : jsGet m k = none := (jsGet_eq_none_iff m k).2 hfalse
    simp [this] at hg

theorem jsGet_replace_self (m : JsObj) (k v : String)
    (h : m.any (fun p => p.1 == k) = true) :
    jsGet (m.map (fun p => if p.1 == k then (p.1, v) else p)) k = some v := by
  induction m with
  | nil => simp at h
  | cons p t ih =>
    simp only [List.map_cons]
    by_cases hp : p.1 == k
    · rw [if_pos hp]
      simp [jsGet, hp]
    · rw [if_neg hp]
      have ht : t.any (fun q => q.1 == k) = true := by
        simpa [List.any_cons, hp] using h
      simpa [jsGet, hp] using ih ht

theorem jsGet_jsAssign_self {m : JsObj} {k : String} (v : String)
    (h : m.any (fun p => p.1 == k) = true) :
    jsGet (jsAssign m k v) k = some v := by
  unfold jsAssign
  rw [if_pos h]
  exact jsGet_replace_self m k v h

theorem jsGet_replace_ne (t : JsObj) (k v k' : String) (h : k' ≠ k) :
    jsGet (t.map (fun p => if p.1 == k then (p.1, v) else p)) k' = jsGet t k' := by
  induction t with
  | nil => rfl
  | cons p u ih =>
    simp only [List.map_cons]
    by_cases hp : p.1 == k
    · have hpk : p.1 = k := by simpa using hp
      have hne : (p.1 == k') = false := by
        simp only [hpk, beq_eq_false_iff_ne, ne_eq]
        exact fun e => h e.symm
      rw [if_pos hp]
      simp only [jsGet, hne]
      simpa [hne] using ih
    · rw [if_neg hp]
      by_cases hq : p.1 == k'
      · simp [jsGet, hq]
      · simp only [jsGet, hq]
        simpa [hq] using ih

theorem jsGet_append_one_ne (t : JsObj) (k v k' : String) (h : k' ≠ k) :
    jsGet (t ++ [(k, v)]) k' = jsGet t k' := by
  induction t with
  | nil =>
    have hkk : (k == k') = false := by
      simp only [beq_eq_false_iff_ne, ne_eq]
      exact fun e => h e.symm
    simp [jsGet, hkk]
  | cons q u ih =>
    by_cases hq : q.1 == k'
    · simp [jsGet, hq]
    · simp only [List.cons_append, jsGet, hq]
      simpa [hq] using ih

theorem jsGet_jsAssign_ne (m : JsObj) (k v k' : String) (h : k' ≠ k) :
    jsGet (jsAssign m k v) k' = jsGet m k' := by
  unfold jsAssign
  by_cases hany : m.any (fun p => p.1 == k)
  · rw [if_pos hany]
    exact jsGet_replace_ne m k v k' h
  · rw [if_neg hany]
    exact jsGet_append_one_ne m k v k' h

theorem map_fst_replace (t : JsObj) (k v : String) :
    (t.map (fun p => if p.1 == k then (p.1, v) else p)).map Prod.fst = t.map Prod.fst := by
  induction t with
  | nil => rfl
  | cons p u ih =>
    simp only [List.map_cons]
    by_cases hp : p.1 == k
    · rw [if_pos hp, ih]
    · rw [if_neg hp, ih]

theorem keys_jsAssign {m : JsObj} {k : String} (v : String)
    (h : m.any (fun p => p.1 == k) = true) :
    (jsAssign m k v).map Prod.fst = m.map Prod.fst := by
  unfold jsAssign
  rw [if_pos h]
  exact map_fst_replace m k v

theorem jsGet_setIfTruthy_ne (m : JsObj) (k v k' : String) (h : k' ≠ k) :
    jsGet (setIfTruthy m k v) k' = jsGet m k' := by
  unfold setIfTruthy
  by_cases ht : truthy (jsGet m k)
  · rw [if_pos ht]; exact jsGet_jsAssign_ne m k v k' h
  · rw [if_neg ht]

theorem jsGet_setIfTruthy_self {m : JsObj} {k : String} (v : String)
    (h : truthy (jsGet m k) = true) :
    jsGet (setIfTruthy m k v) k = some v := by
  unfold setIfTruthy
  rw [if_pos h]
  exact jsGet_jsAssign_self v (any_of_truthy h)

theorem jsGet_setIfTruthy_none {m : JsObj} {k' : String} (k v : String)
    (h : jsGet m k' = none) :
    jsGet (setIfTruthy m k v) k' = none := by
  by_cases hk : k' = k
  · subst hk
    unfold setIfTruthy
    have : truthy (jsGet m k') = false := by rw [h]; rfl
    rw [this]
    simpa using h
  · rw [jsGet_setIfTruthy_ne m k v k' hk]; exact h

theorem keys_setIfTruthy (m : JsObj) (k v : String) :
    (setIfTruthy m k v).map Prod.fst = m.map Prod.fst := by
  unfold setIfTruthy
  by_cases ht : truthy (jsGet m k)
  · rw [if_pos ht]; exact keys_jsAssign v (any_of_truthy ht)
  · rw [if_neg ht]

/-! ## Version lookup tables (the per-package `getXxxVersion` methods)

Each method reads `versionMap[this.targetVersion] || default`. -/

/-- Record lookup with JavaScript `||` fallback, as in
`versionMap[this.targetVersion] || defaultVersion`. -/
def versionLookup (map : JsObj) (tv dflt : String) : String :=
  match jsGet map tv with
  | some s => if s == "" then dflt else s
  | none => dflt

def getTestingLibraryVersion (tv : String) : String :=
  versionLookup [("17", "^11.0.0"), ("18", "^13.0.0"), ("19", "^14.0.0")] tv "^13.0.0"

def getTypesVersion (tv : String) : String :=
  versionLookup [("17", "^17.0.0"), ("18", "^18.0.0"), ("19", "^18.0.0")] tv "^18.0.0"

def getReactRouterVersion (tv : String) : String :=
  versionLookup [("17", "^6.0.0"), ("18", "^6.8.0"), ("19", "^6.20.0")] tv "^6.8.0"

def getReactScriptsVersion (tv : String) : String :=
  versionLookup [("17", "^5.0.0"), ("18", "^5.0.1"), ("19", "^5.0.1")] tv "^5.0.1"

def getReactReduxVersion (tv : String) : String :=
  versionLookup [("17", "^8.0.0"), ("18", "^8.0.5"), ("19", "^9.0.0")] tv "^8.0.5"

def getReduxToolkitVersion (tv : String) : String :=
  versionLookup [("17", "^1.8.0"), ("18", "^1.9.0"), ("19", "^2.0.0")] tv "^1.9.0"

def getReactHookFormVersion (tv : String) : String :=
  versionLookup [("17", "^7.40.0"), ("18", "^7.45.0"), ("19", "^7.48.0")] tv "^7.45.0"

def getFormikVersion (tv : String) : String :=
  versionLookup [("17", "^2.2.9"), ("18", "^2.4.0"), ("19", "^2.4.5")] tv "^2.4.0"

def getStyledComponentsVersion (tv : String) : String :=
  versionLookup [("17", "^5.3.0"), ("18", "^6.0.0"), ("19", "^6.1.0")] tv "^6.0.0"

def getEmotionVersion (tv : String) : String :=
  versionLookup [("17", "^11.10.0"), ("18", "^11.11.0"), ("19", "^11.11.0")] tv "^11.11.0"

def getReactTransitionGroupVersion (tv : String) : String :=
  versionLookup [("17", "^4.4.2"), ("18", "^4.4.5"), ("19", "^4.4.5")] tv "^4.4.5"

def getReactSelectVersion (tv : String) : String :=
  versionLookup [("17", "^5.4.0"), ("18", "^5.7.0"), ("19", "^5.8.0")] tv "^5.7.0"

def getReactDatepickerVersion (tv : String) : String :=
  versionLookup [("17", "^4.8.0"), ("18", "^4.16.0"), ("19", "^4.20.0")] tv "^4.16.0"

def getReactModalVersion (tv : String) : String :=
  versionLookup [("17", "^3.15.0"), ("18", "^3.16.0"), ("19", "^3.16.0")] tv "^3.16.0"

def getReactHelmetVersion (tv : String) : String :=
  versionLookup [("17", "^6.1.0"), ("18", "^6.1.0"), ("19", "^6.1.0")] tv "^6.1.0"

def getReactHelmetAsyncVersion (tv : String) : String :=
  versionLookup [("17", "^1.3.0"), ("18", "^1.3.0"), ("19", "^2.0.0")] tv "^1.3.0"

def getReactVirtualizedVersion (tv : String) : String :=
  versionLookup [("17", "^9.22.3"), ("18", "^9.22.3"), ("19", "^9.22.3")] tv "^9.22.3"

def getReactWindowVersion (tv : String) : String :=
  versionLookup [("17", "^1.8.6"), ("18", "^1.8.8"), ("19", "^1.8.8")] tv "^1.8.8"

def getReactDndVersion (tv : String) : String :=
  versionLookup [("17", "^16.0.0"), ("18", "^16.0.1"), ("19", "^16.0.1")] tv "^16.0.1"

def getReactBeautifulDndVersion (tv : String) : String :=
  versionLookup [("17", "^13.1.0"), ("18", "^13.1.1"), ("19", "^13.1.1")] tv "^13.1.1"

def getReactDropzoneVersion (tv : String) : String :=
  versionLookup [("17", "^14.2.0"), ("18", "^14.2.3"), ("19", "^14.2.3")] tv "^14.2.3"

def getReactTableVersion (tv : String) : String :=
  versionLookup [("17", "^7.8.0"), ("18", "^7.8.0"), ("19", "^7.8.0")] tv "^7.8.0"

def getTanstackReactTableVersion (tv : String) : String :=
  versionLookup [("17", "^8.9.0"), ("18", "^8.10.0"), ("19", "^8.11.0")] tv "^8.10.0"

def getReactQueryVersion (tv : String) : String :=
  versionLookup [("17", "^3.39.0"), ("18", "^3.39.0"), ("19", "^3.39.0")] tv "^3.39.0"

def getTanstackReactQueryVersion (tv : String) : String :=
  versionLookup [("17", "^4.29.0"), ("18", "^4.36.0"), ("19", "^5.0.0")] tv "^4.36.0"

def getReactSpringVersion (tv : String) : String :=
  versionLookup [("17", "^9.7.0"), ("18", "^9.7.0"), ("19", "^9.7.0")] tv "^9.7.0"

def getFramerMotionVersion (tv : String) : String :=
  versionLookup [("17", "^10.0.0"), ("18", "^10.16.0"), ("19", "^11.0.0")] tv "^10.16.0"

def getReactIntlVersion (tv : String) : String :=
  versionLookup [("17", "^6.4.0"), ("18", "^6.5.0"), ("19", "^6.6.0")] tv "^6.5.0"

def getReactI18nextVersion (tv : String) : String :=
  versionLookup [("17", "^12.3.0"), ("18", "^13.5.0"), ("19", "^14.0.0")] tv "^13.5.0"

def getNextVersion (tv : String) : String :=
  versionLookup [("17", "^13.0.0"), ("18", "^14.0.0"), ("19", "^14.0.0")] tv "^14.0.0"

def getGatsbyVersion (tv : String) : String :=
  versionLookup [("17", "^5.0.0"), ("18", "^5.12.0"), ("19", "^5.12.0")] tv "^5.12.0"

def getReactHotToastVersion (tv : String) : String :=
  versionLookup [("17", "^2.4.0"), ("18", "^2.4.1"), ("19", "^2.4.1")] tv "^2.4.1"

def getReactToastifyVersion (tv : String) : String :=
  versionLookup [("17", "^9.1.0"), ("18", "^9.1.3"), ("19", "^10.0.0")] tv "^9.1.3"

def getReactIconsVersion (tv : String) : String :=
  versionLookup [("17", "^4.10.0"), ("18", "^4.12.0"), ("19", "^5.0.0")] tv "^4.12.0"

def getReactUseVersion (tv : String) : String :=
  versionLookup [("17", "^17.4.0"), ("18", "^17.5.0"), ("19", "^17.5.0")] tv "^17.5.0"

def getReactErrorBoundaryVersion (tv : String) : String :=
  versionLookup [("17", "^4.0.0"), ("18", "^4.0.11"), ("19", "^4.0.11")] tv "^4.0.11"

def getReactLoadableVersion (tv : String) : String :=
  versionLookup [("17", "^5.5.0"), ("18", "^5.5.0"), ("19", "^5.5.0")] tv "^5.5.0"

def getLoadableComponentVersion (tv : String) : String :=
  versionLookup [("17", "^5.15.0"), ("18", "^5.16.0"), ("19", "^5.16.0")] tv "^5.16.0"

def getReactLazyloadVersion (tv : String) : String :=
  versionLookup [("17", "^3.2.0"), ("18", "^3.2.0"), ("19", "^3.2.0")] tv "^3.2.0"

def getReactIntersectionObserverVersion (tv : String) : String :=
  versionLookup [("17", "^9.4.0"), ("18", "^9.5.0"), ("19", "^9.5.0")] tv "^9.5.0"

/-- The `getReactRelatedPackages` table: package name to replacement
version for the given target version, in source order. -/
def getReactRelatedPackages (tv : String) : List (String × String) :=
  [("@testing-library/react", getTestingLibraryVersion tv),
   ("@types/react", getTypesVersion tv),
   ("@types/react-dom", getTypesVersion tv),
   ("react-router-dom", getReactRouterVersion tv),
   ("react-router", getReactRouterVersion tv),
   ("react-scripts", getReactScriptsVersion tv),
   ("react-redux", getReactReduxVersion tv),
   ("@reduxjs/toolkit", getReduxToolkitVersion tv),
   ("react-hook-form", getReactHookFormVersion tv),
   ("formik", getFormikVersion tv),
   ("styled-components", getStyledComponentsVersion tv),
   ("@emotion/react", getEmotionVersion tv),
   ("@emotion/styled", getEmotionVersion tv),
   ("react-transition-group", getReactTransitionGroupVersion tv),
   ("react-select", getReactSelectVersion tv),
   ("react-datepicker", getReactDatepickerVersion tv),
   ("react-modal", getReactModalVersion tv),
   ("react-helmet", getReactHelmetVersion tv),
   ("react-helmet-async", getReactHelmetAsyncVersion tv),
   ("react-virtualized", getReactVirtualizedVersion tv),
   ("react-window", getReactWindowVersion tv),
   ("react-dnd", getReactDndVersion tv),
   ("react-beautiful-dnd", getReactBeautifulDndVersion tv),
   ("react-dropzone", getReactDropzoneVersion tv),
   ("react-table", getReactTableVersion tv),
   ("@tanstack/react-table", getTanstackReactTableVersion tv),
   ("react-query", getReactQueryVersion tv),
   ("@tanstack/react-query", getTanstackReactQueryVersion tv),
   ("react-spring", getReactSpringVersion tv),
   ("framer-motion", getFramerMotionVersion tv),
   ("react-intl", getReactIntlVersion tv),
   ("react-i18next", getReactI18nextVersion tv),
   ("next", getNextVersion tv),
   ("gatsby", getGatsbyVersion tv),
   ("react-hot-toast", getReactHotToastVersion tv),
   ("react-toastify", getReactToastifyVersion tv),
   ("react-icons", getReactIconsVersion tv),
   ("react-use", getReactUseVersion tv),
   ("react-error-boundary", getReactErrorBoundaryVersion tv),
   ("react-loadable", getReactLoadableVersion tv),
   ("@loadable/component", getLoadableComponentVersion tv),
   ("react-lazyload", getReactLazyloadVersion tv),
   ("react-intersection-observer", getReactIntersectionObserverVersion tv)]

/-! ## The dependency resolver (`updateDependencies`, in-memory part) -/

/-- The manifest: `dependencies` and `devDependencies` sections of
`package.json`. -/
structure Manifest where
  dependencies : JsObj
  devDependencies : JsObj
deriving DecidableEq

/-- One iteration of the `for (const [pkg, version] of ...)` loop of
`updateDependencies`: if the package is (truthily) present in either
section, overwrite it in each section where it is present. -/
def updRelStep (mf : Manifest) (pv : String × String) : Manifest :=
  if truthy (jsGet mf.dependencies pv.1) || truthy (jsGet mf.devDependencies pv.1) then
    { dependencies := setIfTruthy mf.dependencies pv.1 pv.2,
      devDependencies := setIfTruthy mf.devDependencies pv.1 pv.2 }
  else mf

/-- The in-memory manifest update performed by `updateDependencies`:
re-pin `react` and `react-dom` in the direct dependencies, then walk the
related-package table. -/
def updateDependenciesManifest (tv : String) (mf : Manifest) : Manifest :=
  (getReactRelatedPackages tv).foldl updRelStep
    { dependencies :=
        setIfTruthy (setIfTruthy mf.dependencies "react" ("^" ++ tv)) "react-dom" ("^" ++ tv),
      devDependencies := mf.devDependencies }

/-- The `analyzeProject` precondition on the manifest:
`packageJson.dependencies?.react || packageJson.devDependencies?.react`
must be truthy, else `migrate` throws `React not found in dependencies`. -/
def analyzeAccepts (mf : Manifest) : Bool :=
  truthy (jsGet mf.dependencies "react") || truthy (jsGet mf.devDependencies "react")

/-! ### Lemmas about the related-package walk -/

theorem updRelStep_get_ne (mf : Manifest) (pv : String × String) (k : String)
    (h : k ≠ pv.1) :
    jsGet (updRelStep mf pv).dependencies k = jsGet mf.dependencies k ∧
      jsGet (updRelStep mf pv).devDependencies k = jsGet mf.devDependencies k := by
  unfold updRelStep
  by_cases hg : truthy (jsGet mf.dependencies pv.1) || truthy (jsGet mf.devDependencies pv.1)
  · rw [if_pos hg]
    exact ⟨jsGet_setIfTruthy_ne _ _ _ _ h, jsGet_setIfTruthy_ne _ _ _ _ h⟩
  · rw [if_neg hg]
    exact ⟨rfl, rfl⟩

theorem updRelStep_none (mf : Manifest) (pv : String × String) (k : String) :
    (jsGet mf.dependencies k = none →
      jsGet (updRelStep mf pv).dependencies k = none) ∧
    (jsGet mf.devDependencies k = none →
      jsGet (updRelStep mf pv).devDependencies k = none) := by
  unfold updRelStep
  by_cases hg : truthy (jsGet mf.dependencies pv.1) || truthy (jsGet mf.devDependencies pv.1)
  · rw [if_pos hg]
    exact ⟨jsGet_setIfTruthy_none _ _, jsGet_setIfTruthy_none _ _⟩
  · rw [if_neg hg]
    exact ⟨fun h => h, fun h => h⟩

theorem updRelStep_keys (mf : Manifest) (pv : String × String) :
    (updRelStep mf pv).dependencies.map Prod.fst = mf.dependencies.map Prod.fst ∧
      (updRelStep mf pv).devDependencies.map Prod.fst = mf.devDependencies.map Prod.fst := by
  unfold updRelStep
  by_cases hg : truthy (jsGet mf.dependencies pv.1) || truthy (jsGet mf.devDependencies pv.1)
  · rw [if_pos hg]
    exact ⟨keys_setIfTruthy _ _ _, keys_setIfTruthy _ _ _⟩
  · rw [if_neg hg]
    exact ⟨rfl, rfl⟩

theorem foldl_updRelStep_get_ne :
    ∀ (pkgs : List (String × String)) (mf : Manifest) (k : String),
      (k ∉ pkgs.map Prod.fst) →
      jsGet (pkgs.foldl updRelStep mf).dependencies k = jsGet mf.dependencies k ∧
        jsGet (pkgs.foldl updRelStep mf).devDependencies k = jsGet mf.devDependencies k := by
  intro pkgs
  induction pkgs with
  | nil => intro mf k _; exact ⟨rfl, rfl⟩
  | cons q rest ih =>
    intro mf k hk
    have hk1 : k ≠ q.1 := by
      intro e; exact hk (by simp [e])
    have hkrest : k ∉ rest.map Prod.fst := by
      intro e; exact hk (by simp [e])
    have hstep := updRelStep_get_ne mf q k hk1
    have hfold := ih (updRelStep mf q) k hkrest
    simp only [List.foldl_cons]
    exact ⟨hfold.1.trans hstep.1, hfold.2.trans hstep.2⟩

theorem foldl_updRelStep_none :
    ∀ (pkgs : List (String × String)) (mf : Manifest) (k : String),
      (jsGet mf.dependencies k = none →
        jsGet (pkgs.foldl updRelStep mf).dependencies k = none) ∧
      (jsGet mf.devDependencies k = none →
        jsGet (pkgs.foldl updRelStep mf).devDependencies k = none) := by
  intro pkgs
  induction pkgs with
  | nil => intro mf k; exact ⟨fun h => h, fun h => h⟩
  | cons q rest ih =>
    intro mf k
    have hstep := updRelStep_none mf q k
    have hfold := ih (updRelStep mf q) k
    simp only [List.foldl_cons]
    exact ⟨fun h => hfold.1 (hstep.1 h), fun h => hfold.2 (hstep.2 h)⟩

theorem foldl_updRelStep_keys :
    ∀ (pkgs : List (String × String)) (mf : Manifest),
      (pkgs.foldl updRelStep mf).dependencies.map Prod.fst
          = mf.dependencies.map Prod.fst ∧
        (pkgs.foldl updRelStep mf).devDependencies.map Prod.fst
          = mf.devDependencies.map Prod.fst := by
  intro pkgs
  induction pkgs with
  | nil => intro mf; exact ⟨rfl, rfl⟩
  | cons q rest ih =>
    intro mf
    have hstep := updRelStep_keys mf q
    have hfold := ih (updRelStep mf q)
    simp only [List.foldl_cons]
    exact ⟨hfold.1.trans hstep.1, hfold.2.trans hstep.2⟩

theorem foldl_updRelStep_mem :
    ∀ (pkgs : List (String × String)) (mf : Manifest) (pv : String × String),
      (pkgs.map Prod.fst).Nodup → pv ∈ pkgs →
      (truthy (jsGet mf.dependencies pv.1) = true →
        jsGet (pkgs.foldl updRelStep mf).dependencies pv.1 = some pv.2) ∧
      (truthy (jsGet mf.devDependencies pv.1) = true →
        jsGet (pkgs.foldl updRelStep mf).devDependencies pv.1 = some pv.2) := by
  intro pkgs
  induction pkgs with
  | nil => intro mf pv _ hmem; cases hmem
  | cons q rest ih =>
    intro mf pv hnodup hmem
    have hnodup' : (q.1 :: rest.map Prod.fst).Nodup := by simpa using hnodup
    have hnd := List.nodup_cons.mp hnodup'
    rcases List.mem_cons.mp hmem with heq | hrest
    · subst heq
      have hnotin : pv.1 ∉ rest.map Prod.fst := hnd.1
      simp only [List.foldl_cons]
      constructor
      · intro htr
        have hguard : (truthy (jsGet mf.dependencies pv.1)
            || truthy (jsGet mf.devDependencies pv.1)) = true := by
          rw [htr]; rfl
        have hset : jsGet (updRelStep mf pv).dependencies pv.1 = some pv.2 := by
          unfold updRelStep
          rw [if_pos hguard]
          exact jsGet_setIfTruthy_self _ htr
        exact (foldl_updRelStep_get_ne rest (updRelStep mf pv) pv.1 hnotin).1.trans hset
      · intro htr
        have hguard : (truthy (jsGet mf.dependencies pv.1)
            || truthy (jsGet mf.devDependencies pv.1)) = true := by
          rw [htr]; simp
        have hset : jsGet (updRelStep mf pv).devDependencies pv.1 = some pv.2 := by
          unfold updRelStep
          rw [if_pos hguard]
          exact jsGet_setIfTruthy_self _ htr
        exact (foldl_updRelStep_get_ne rest (updRelStep mf pv) pv.1 hnotin).2.trans hset
    · have hne : pv.1 ≠ q.1 := by
        intro e
        exact hnd.1 (by rw [← e]; exact List.mem_map.mpr ⟨pv, hrest, rfl⟩)
      have hstep := updRelStep_get_ne mf q pv.1 hne
      have := ih (updRelStep mf q) pv hnd.2 hrest
      simp only [List.foldl_cons]
      constructor
      · intro htr
        exact (this.1 (by rw [hstep.1]; exact htr))
      · intro htr
        exact (this.2 (by rw [hstep.2]; exact htr))

/-- The names in the related-package table do not depend on the target
version. -/
theorem relatedNames_eq (tv : String) :
    (getReactRelatedPackages tv).map Prod.fst
      = ["@testing-library/react", "@types/react", "@types/react-dom",
         "react-router-dom", "react-router", "react-scripts", "react-redux",
         "@reduxjs/toolkit", "react-hook-form", "formik", "styled-components",
         "@emotion/react", "@emotion/styled", "react-transition-group",
         "react-select", "react-datepicker", "react-modal", "react-helmet",
         "react-helmet-async", "react-virtualized", "react-window",
         "react-dnd", "react-beautiful-dnd", "react-dropzone", "react-table",
         "@tanstack/react-table", "react-query", "@tanstack/react-query",
         "react-spring", "framer-motion", "react-intl", "react-i18next",
         "next", "gatsby", "react-hot-toast", "react-toastify", "react-icons",
         "react-use", "react-error-boundary", "react-loadable",
         "@loadable/component", "react-lazyload",
         "react-intersection-observer"] := rfl

/-- The result of `updateDependenciesManifest` as a fold, for rewriting. -/
theorem updateDependenciesManifest_eq (tv : String) (mf : Manifest) :
    updateDependenciesManifest tv mf
      = (getReactRelatedPackages tv).foldl updRelStep
          { dependencies :=
              setIfTruthy (setIfTruthy mf.dependencies "react" ("^" ++ tv))
                "react-dom" ("^" ++ tv),
            devDependencies := mf.devDependencies } := rfl

/-- The core packages are not in the related-package table. -/
theorem react_not_related (tv : String) :
    "react" ∉ (getReactRelatedPackages tv).map Prod.fst ∧
      "react-dom" ∉ (getReactRelatedPackages tv).map Prod.fst := by
  rw [relatedNames_eq]
  exact ⟨by decide, by decide⟩

/-- The related-package table has pairwise distinct names. -/
theorem relatedNames_nodup (tv : String) :
    ((getReactRelatedPackages tv).map Prod.fst).Nodup := by
  rw [relatedNames_eq]
  decide

/-! ## Claim C1 -/

/-- C1 (counterexample): the claim is false as stated.  The manifest
`{dependencies: {react: ""}}` contains the `react` key, yet
`updateDependencies` at target 18 leaves the entry at `""` instead of
setting it to `"^18"`, because the source guards the assignment with the
JavaScript truthiness test `if (packageJson.dependencies?.react)` and the
empty string is falsy. -/
theorem c1_counterexample :
    jsGet ({ dependencies := [("react", "")], devDependencies := [] } : Manifest).dependencies
        "react" = some "" ∧
      jsGet (updateDependenciesManifest "18"
          { dependencies := [("react", "")], devDependencies := [] }).dependencies "react"
        = some "" ∧
      some "" ≠ some ("^" ++ "18") := by
  refine ⟨rfl, by decide, by decide⟩

/-- C1 (amended): for a target version in 17/18/19 and a manifest whose
direct dependencies bind `react` to a non-empty version string,
`updateDependencies` re-pins `react` (and a non-emptily present
`react-dom`) to `"^" + targetVersion`, and every key absent from a section
of the manifest is still absent from that section afterwards. -/
theorem c1_amended (tv : String) (mf : Manifest) (v : String)
    (htv : tv ∈ (["17", "18", "19"] : List String))
    (hr : jsGet mf.dependencies "react" = some v) (hv : v ≠ "") :
    jsGet (updateDependenciesManifest tv mf).dependencies "react" = some ("^" ++ tv) ∧
    (∀ w, jsGet mf.dependencies "react-dom" = some w → w ≠ "" →
      jsGet (updateDependenciesManifest tv mf).dependencies "react-dom" = some ("^" ++ tv)) ∧
    (∀ k, jsGet mf.dependencies k = none →
      jsGet (updateDependenciesManifest tv mf).dependencies k = none) ∧
    (∀ k, jsGet mf.devDependencies k = none →
      jsGet (updateDependenciesManifest tv mf).devDependencies k = none) := by
  have hrd : ("react" : String) ≠ "react-dom" := by decide
  have htruthy : truthy (jsGet mf.dependencies "react") = true := by
    rw [hr]
    simpa [truthy] using hv
  refine ⟨?_, ?_, ?_, ?_⟩
  · have h1 : jsGet (setIfTruthy mf.dependencies "react" ("^" ++ tv)) "react"
        = some ("^" ++ tv) := jsGet_setIfTruthy_self _ htruthy
    have h2 : jsGet (setIfTruthy (setIfTruthy mf.dependencies "react" ("^" ++ tv))
        "react-dom" ("^" ++ tv)) "react" = some ("^" ++ tv) := by
      rw [jsGet_setIfTruthy_ne _ _ _ _ hrd]
      exact h1
    exact (foldl_updRelStep_get_ne (getReactRelatedPackages tv) _ "react"
      (react_not_related tv).1).1.trans h2
  · intro w hw hwne
    have hwt : truthy (jsGet (setIfTruthy mf.dependencies "react" ("^" ++ tv)) "react-dom")
        = true := by
      rw [jsGet_setIfTruthy_ne _ _ _ _ (by decide : ("react-dom" : String) ≠ "react"), hw]
      simpa [truthy] using hwne
    have h2 : jsGet (setIfTruthy (setIfTruthy mf.dependencies "react" ("^" ++ tv))
        "react-dom" ("^" ++ tv)) "react-dom" = some ("^" ++ tv) :=
      jsGet_setIfTruthy_self _ hwt
    exact (foldl_updRelStep_get_ne (getReactRelatedPackages tv) _ "react-dom"
      (react_not_related tv).2).1.trans h2
  · intro k hk
    have h1 : jsGet (setIfTruthy mf.dependencies "react" ("^" ++ tv)) k = none :=
      jsGet_setIfTruthy_none _ _ hk
    have h2 : jsGet (setIfTruthy (setIfTruthy mf.dependencies "react" ("^" ++ tv))
        "react-dom" ("^" ++ tv)) k = none := jsGet_setIfTruthy_none _ _ h1
    exact (foldl_updRelStep_none (getReactRelatedPackages tv)
      { dependencies := _, devDependencies := mf.devDependencies } k).1 h2
  · intro k hk
    exact (foldl_updRelStep_none (getReactRelatedPackages tv)
      { dependencies := _, devDependencies := mf.devDependencies } k).2 hk

/-- C1 (witness): the amended claim applied to a concrete manifest. -/
theorem c1_amended_witness :
    jsGet (updateDependenciesManifest "18"
        { dependencies := [("react", "^16.0.0"), ("react-dom", "^16.0.0"), ("lodash", "1.0.0")],
          devDependencies := [("jest", "^27.0.0")] }).dependencies "react" = some "^18" ∧
    jsGet (updateDependenciesManifest "18"
        { dependencies := [("react", "^16.0.0"), ("react-dom", "^16.0.0"), ("lodash", "1.0.0")],
          devDependencies := [("jest", "^27.0.0")] }).dependencies "react-dom" = some "^18" ∧
    jsGet (updateDependenciesManifest "18"
        { dependencies := [("react", "^16.0.0"), ("react-dom", "^16.0.0"), ("lodash", "1.0.0")],
          devDependencies := [("jest", "^27.0.0")] }).dependencies "left-pad" = none := by
  have h := c1_amended "18"
    { dependencies := [("react", "^16.0.0"), ("react-dom", "^16.0.0"), ("lodash", "1.0.0")],
      devDependencies := [("jest", "^27.0.0")] }
    "^16.0.0" (by decide) (by decide) (by decide)
  exact ⟨h.1, h.2.1 "^16.0.0" (by decide) (by decide), h.2.2.1 "left-pad" (by decide)⟩

/-! ## Claim C7 -/

/-- C7: `updateDependencies` preserves the exact key sequence of both
manifest sections, and the value of any key other than `react`,
`react-dom` and the related-package table entries is unchanged in both
sections. -/
theorem c7_key_set_frame (tv : String) (mf : Manifest)
    (htv : tv ∈ (["17", "18", "19"] : List String)) :
    (updateDependenciesManifest tv mf).dependencies.map Prod.fst
        = mf.dependencies.map Prod.fst ∧
    (updateDependenciesManifest tv mf).devDependencies.map Prod.fst
        = mf.devDependencies.map Prod.fst ∧
    (∀ k, k ≠ "react" → k ≠ "react-dom" →
      k ∉ (getReactRelatedPackages tv).map Prod.fst →
      jsGet (updateDependenciesManifest tv mf).dependencies k
          = jsGet mf.dependencies k ∧
        jsGet (updateDependenciesManifest tv mf).devDependencies k
          = jsGet mf.devDependencies k) := by
  refine ⟨?_, ?_, ?_⟩
  · have hf := (foldl_updRelStep_keys (getReactRelatedPackages tv)
      { dependencies :=
          setIfTruthy (setIfTruthy mf.dependencies "react" ("^" ++ tv)) "react-dom" ("^" ++ tv),
        devDependencies := mf.devDependencies }).1
    calc (updateDependenciesManifest tv mf).dependencies.map Prod.fst
        = (setIfTruthy (setIfTruthy mf.dependencies "react" ("^" ++ tv))
            "react-dom" ("^" ++ tv)).map Prod.fst := hf
      _ = (setIfTruthy mf.dependencies "react" ("^" ++ tv)).map Prod.fst :=
            keys_setIfTruthy _ _ _
      _ = mf.dependencies.map Prod.fst := keys_setIfTruthy _ _ _
  · exact (foldl_updRelStep_keys (getReactRelatedPackages tv) _).2
  · intro k hk1 hk2 hk3
    have hfold := foldl_updRelStep_get_ne (getReactRelatedPackages tv)
      { dependencies :=
          setIfTruthy (setIfTruthy mf.dependencies "react" ("^" ++ tv)) "react-dom" ("^" ++ tv),
        devDependencies := mf.devDependencies } k hk3
    rw [updateDependenciesManifest_eq]
    constructor
    · rw [hfold.1, jsGet_setIfTruthy_ne _ _ _ _ hk2, jsGet_setIfTruthy_ne _ _ _ _ hk1]
    · exact hfold.2

/-- C7 (witness): key preservation and value frame at a concrete
manifest. -/
theorem c7_key_set_frame_witness :
    (updateDependenciesManifest "19"
        { dependencies := [("react", "^16.0.0"), ("lodash", "1.0.0")],
          devDependencies := [("jest", "^27.0.0")] }).dependencies.map Prod.fst
      = ["react", "lodash"] ∧
    (updateDependenciesManifest "19"
        { dependencies := [("react", "^16.0.0"), ("lodash", "1.0.0")],
          devDependencies := [("jest", "^27.0.0")] }).devDependencies.map Prod.fst
      = ["jest"] ∧
    jsGet (updateDependenciesManifest "19"
        { dependencies := [("react", "^16.0.0"), ("lodash", "1.0.0")],
          devDependencies := [("jest", "^27.0.0")] }).dependencies "lodash" = some "1.0.0" := by
  have h := c7_key_set_frame "19"
    { dependencies := [("react", "^16.0.0"), ("lodash", "1.0.0")],
      devDependencies := [("jest", "^27.0.0")] } (by decide)
  have hlod := h.2.2 "lodash" (by decide) (by decide)
    (by rw [relatedNames_eq]; decide)
  exact ⟨h.1, h.2.1, hlod.1.trans (by decide)⟩

/-! ## Claim C9 -/

/-- C9 (counterexample): the claim is false as stated.  In the manifest
`{devDependencies: {react: ""}}` the key `react` appears only in
`devDependencies`, yet `analyzeProject` rejects the project
(`React not found in dependencies`): the precondition tests JavaScript
truthiness, and the empty version string is falsy. -/
theorem c9_counterexample :
    jsGet ({ dependencies := [], devDependencies := [("react", "")] } : Manifest).devDependencies
        "react" = some "" ∧
      analyzeAccepts { dependencies := [], devDependencies := [("react", "")] } = false := by
  exact ⟨rfl, by decide⟩

/-- C9 (amended): if `react` is bound, with a non-empty version string,
only in `devDependencies`, then `analyzeProject` accepts the manifest,
`updateDependencies` leaves the `devDependencies` `react` entry unchanged
(and adds no `react` entry to the direct dependencies), while
related-table packages truthily present in a section are still updated
there. -/
theorem c9_devdeps_react (tv : String) (mf : Manifest) (v : String)
    (hd : jsGet mf.dependencies "react" = none)
    (hv : jsGet mf.devDependencies "react" = some v) (hne : v ≠ "") :
    analyzeAccepts mf = true ∧
    jsGet (updateDependenciesManifest tv mf).devDependencies "react" = some v ∧
    jsGet (updateDependenciesManifest tv mf).dependencies "react" = none ∧
    (∀ pv ∈ getReactRelatedPackages tv,
      truthy (jsGet mf.devDependencies pv.1) = true →
      jsGet (updateDependenciesManifest tv mf).devDependencies pv.1 = some pv.2) ∧
    (∀ pv ∈ getReactRelatedPackages tv,
      truthy (jsGet mf.dependencies pv.1) = true →
      jsGet (updateDependenciesManifest tv mf).dependencies pv.1 = some pv.2) := by
  have hmid : updateDependenciesManifest tv mf
      = (getReactRelatedPackages tv).foldl updRelStep
          { dependencies :=
              setIfTruthy (setIfTruthy mf.dependencies "react" ("^" ++ tv))
                "react-dom" ("^" ++ tv),
            devDependencies := mf.devDependencies } := rfl
  have hdeps_mid : setIfTruthy (setIfTruthy mf.dependencies "react" ("^" ++ tv))
      "react-dom" ("^" ++ tv)
      = setIfTruthy mf.dependencies "react-dom" ("^" ++ tv) := by
    have : setIfTruthy mf.dependencies "react" ("^" ++ tv) = mf.dependencies := by
      unfold setIfTruthy
      rw [hd]
      rfl
    rw [this]
  refine ⟨?_, ?_, ?_, ?_, ?_⟩
  · unfold analyzeAccepts
    rw [hd, hv]
    simpa [truthy] using hne
  · rw [hmid]
    have hfr := (foldl_updRelStep_get_ne (getReactRelatedPackages tv)
      { dependencies :=
          setIfTruthy (setIfTruthy mf.dependencies "react" ("^" ++ tv))
            "react-dom" ("^" ++ tv),
        devDependencies := mf.devDependencies } "react" (react_not_related tv).1).2
    rw [hfr]
    exact hv
  · rw [hmid]
    refine (foldl_updRelStep_none (getReactRelatedPackages tv)
      { dependencies :=
          setIfTruthy (setIfTruthy mf.dependencies "react" ("^" ++ tv))
            "react-dom" ("^" ++ tv),
        devDependencies := mf.devDependencies } "react").1 ?_
    show jsGet (setIfTruthy (setIfTruthy mf.dependencies "react" ("^" ++ tv))
      "react-dom" ("^" ++ tv)) "react" = none
    rw [hdeps_mid]
    exact jsGet_setIfTruthy_none _ _ hd
  · intro pv hpv htr
    rw [hmid]
    exact (foldl_updRelStep_mem (getReactRelatedPackages tv) _ pv
      (relatedNames_nodup tv) hpv).2 htr
  · intro pv hpv htr
    have hp1 : pv.1 ∈ (getReactRelatedPackages tv).map Prod.fst :=
      List.mem_map.mpr ⟨pv, hpv, rfl⟩
    have hpr : pv.1 ≠ "react" := by
      intro e; rw [e] at hp1; exact (react_not_related tv).1 hp1
    have hprd : pv.1 ≠ "react-dom" := by
      intro e; rw [e] at hp1; exact (react_not_related tv).2 hp1
    rw [hmid]
    refine (foldl_updRelStep_mem (getReactRelatedPackages tv) _ pv
      (relatedNames_nodup tv) hpv).1 ?_
    show truthy (jsGet (setIfTruthy (setIfTruthy mf.dependencies "react" ("^" ++ tv))
      "react-dom" ("^" ++ tv)) pv.1) = true
    rw [jsGet_setIfTruthy_ne _ _ _ _ hprd, jsGet_setIfTruthy_ne _ _ _ _ hpr]
    exact htr

/-- C9 (witness): the amended claim applied to a concrete manifest with
`react` only in `devDependencies`. -/
theorem c9_devdeps_react_witness :
    analyzeAccepts
        { dependencies := [("redux", "^4.0.0")],
          devDependencies := [("react", "^16.0.0"), ("react-redux", "^7.0.0")] } = true ∧
    jsGet (updateDependenciesManifest "19"
        { dependencies := [("redux", "^4.0.0")],
          devDependencies := [("react", "^16.0.0"), ("react-redux", "^7.0.0")] }).devDependencies
      "react" = some "^16.0.0" ∧
    jsGet (updateDependenciesManifest "19"
        { dependencies := [("redux", "^4.0.0")],
          devDependencies := [("react", "^16.0.0"), ("react-redux", "^7.0.0")] }).dependencies
      "react" = none ∧
    jsGet (updateDependenciesManifest "19"
        { dependencies := [("redux", "^4.0.0")],
          devDependencies := [("react", "^16.0.0"), ("react-redux", "^7.0.0")] }).devDependencies
      "react-redux" = some "^9.0.0" := by
  have h := c9_devdeps_react "19"
    { dependencies := [("redux", "^4.0.0")],
      devDependencies := [("react", "^16.0.0"), ("react-redux", "^7.0.0")] }
    "^16.0.0" (by decide) (by decide) (by decide)
  refine ⟨h.1, h.2.1, h.2.2.1, ?_⟩
  have := h.2.2.2.1 ("react-redux", getReactReduxVersion "19") (by decide) (by decide)
  exact this.trans (by decide)

/-! ## The rewrite pipeline (`transformFile` and its rule methods)

The render-API rule uses the regex
`/ReactDOM\.render\(\s*(<[^>]+>[\s\S]*?<\/[^>]+>|<[^>]+\s*\/>),\s*([^)]+)\)/g`.
It is hand-compiled below.  The only parts of the pattern that need
backtracking are the ordered alternation of the element group and the lazy
star `[\s\S]*?` inside its first alternative; every character-class
repetition is bounded by a character that the class excludes, so those
pieces match deterministically. -/

/-- Attempt to match the close tag `<\/[^>]+>` at the head; returns the
number of characters consumed. -/
def tryCloseAt (s : List Char) : Option Nat :=
  match s with
  | '<' :: '/' :: r =>
    let run := r.takeWhile (fun c => !(c == '>'))
    if run.length ≥ 1 then
      match r.drop run.length with
      | '>' :: _ => some (2 + run.length + 1)
      | _ => none
    else none
  | _ => none

/-- All positions (offset, consumed length) at which the close tag
matches, in increasing offset order: the candidate list of the lazy star
`[\s\S]*?` followed by the close tag. -/
def closeCands : List Char → List (Nat × Nat)
  | [] => []
  | c :: t =>
    let rest := (closeCands t).map (fun p => (p.1 + 1, p.2))
    match tryCloseAt (c :: t) with
    | some n => (0, n) :: rest
    | none => rest

/-- Candidate lengths of the element group
`(<[^>]+>[\s\S]*?<\/[^>]+>|<[^>]+\s*\/>)` measured from the start of
`t1`, in the order the JavaScript engine tries them: first every lazy
extension of the paired-tag alternative, then the self-closing
alternative. -/
def elemCandidates (t1 : List Char) : List Nat :=
  match t1 with
  | '<' :: u =>
    let run1 := u.takeWhile (fun c => !(c == '>'))
    let alt1 :=
      if run1.length ≥ 1 then
        match u.drop run1.length with
        | '>' :: afterOpen =>
          (closeCands afterOpen).map (fun oc => (1 + run1.length + 1) + oc.1 + oc.2)
        | _ => []
      else []
    let alt2 :=
      if run1.length ≥ 2 && (run1.getLast? == some '/') then
        match u.drop run1.length with
        | '>' :: _ => [1 + run1.length + 1]
        | _ => []
      else []
    alt1 ++ alt2
  | _ => []

/-- Parse the continuation `,\s*([^)]+)\)` after the element group;
returns the captured container text and the number of characters consumed.
The capture drops as much leading whitespace as the greedy `\s*` can take
while leaving at least one character for `[^)]+`. -/
def parseCont (s : List Char) : Option (List Char × Nat) :=
  match s with
  | ',' :: t =>
    let run := t.takeWhile (fun c => !(c == ')'))
    if run.length ≥ 1 then
      match t.drop run.length with
      | ')' :: _ =>
        let k := min (run.takeWhile isJsWS).length (run.length - 1)
        some (run.drop k, 1 + run.length + 1)
      | _ => none
    else none
  | _ => none

/-- The literal head of the render regex. -/
def renderLit : List Char := "ReactDOM.render(".data

/-- Match the full render regex at the head of `s`; returns the
replacement text `const root = createRoot(<container>);\nroot.render(<element>)`
and the number of characters the match consumed. -/
def renderMatchAt (s : List Char) : Option (List Char × Nat) :=
  if prefixOfB renderLit s then
    let afterLit := s.drop renderLit.length
    let wsN := (afterLit.takeWhile isJsWS).length
    let t1 := afterLit.drop wsN
    match (elemCandidates t1).findSome? (fun elemLen =>
        match parseCont (t1.drop elemLen) with
        | some (cont, contLen) => some (t1.take elemLen, cont, elemLen + contLen)
        | none => none) with
    | some (elem, cont, n) =>
      some ("const root = createRoot(".data ++ cont ++ ");\nroot.render(".data ++ elem
              ++ [')'],
        renderLit.length + wsN + n)
    | none => none
  else none

/-- `renderRegex.test(content)`. -/
def renderTest (content : String) : Bool := scanTest renderMatchAt content.data

/-- `transformReactDOMRender`: rewrite the `react-dom` import to the
`createRoot` import and replace every matched render call, logging one fix
entry for the file. -/
def transformReactDOMRender (fileName content : String) : String × List String :=
  if renderTest content then
    let t :=
      if strContains content "import ReactDOM from \x27react-dom\x27" then
        replaceFirstStr content "import ReactDOM from \x27react-dom\x27"
          "import \x7b createRoot \x7d from \x27react-dom/client\x27"
      else if strContains content "import \x7b render \x7d from \x27react-dom\x27" then
        replaceFirstStr content "import \x7b render \x7d from \x27react-dom\x27"
          "import \x7b createRoot \x7d from \x27react-dom/client\x27"
      else content
    (String.mk (scanReplace renderMatchAt t.data),
      [fileName ++ ": Updated ReactDOM.render to createRoot API"])
  else (content, [])

/-- Match `componentWillReceiveProps\s*\([^)]+\)` at the head; the
replacement is the fixed text `componentDidUpdate(prevProps)`. -/
def wrpMatchAt (s : List Char) : Option (List Char × Nat) :=
  if prefixOfB "componentWillReceiveProps".data s then
    let r1 := s.drop "componentWillReceiveProps".data.length
    let wsN := (r1.takeWhile isJsWS).length
    match r1.drop wsN with
    | '(' :: r3 =>
      let run := r3.takeWhile (fun c => !(c == ')'))
      if run.length ≥ 1 then
        match r3.drop run.length with
        | ')' :: _ =>
          some ("componentDidUpdate(prevProps)".data,
            "componentWillReceiveProps".data.length + wsN + 1 + run.length + 1)
        | _ => none
      else none
    | _ => none
  else none

/-- `transformLifecycleMethods`: the three deprecated lifecycle-method
substitutions.  Each presence test reads the method's *input* content (the
source tests `content`, not `transformed`), while the substitutions chain
on the accumulated text. -/
def transformLifecycleMethods (fileName content : String) : String × List String :=
  let d0 := content.data
  let s1 :=
    if containsSub "componentWillMount".data d0 then
      (replaceAllSub "componentWillMount".data "componentDidMount".data d0,
        [fileName ++ ": Replaced componentWillMount with componentDidMount"])
    else (d0, [])
  let s2 :=
    if containsSub "componentWillReceiveProps".data d0 then
      (scanReplace wrpMatchAt s1.1,
        [fileName ++ ": Replaced componentWillReceiveProps with componentDidUpdate"])
    else (s1.1, [])
  let s3 :=
    if containsSub "componentWillUpdate".data d0 then
      (replaceAllSub "componentWillUpdate".data "componentDidUpdate".data s2.1,
        [fileName ++ ": Replaced componentWillUpdate with componentDidUpdate"])
    else (s2.1, [])
  (String.mk s3.1, s1.2 ++ s2.2 ++ s3.2)

/-- `transformEventHandlers`: advisory only, never modifies content. -/
def transformEventHandlers (fileName content : String) : List String :=
  if strContains content "SyntheticEvent" then
    [fileName ++ ": Review SyntheticEvent usage - React 17+ uses native events"]
  else []

/-- Match `import React[^;]+;` at the head, returning the matched text. -/
def importReactMatchAt (s : List Char) : Option (List Char) :=
  if prefixOfB "import React".data s then
    let r := s.drop "import React".data.length
    let run := r.takeWhile (fun c => !(c == ';'))
    if run.length ≥ 1 then
      match r.drop run.length with
      | ';' :: _ => some ("import React".data ++ run ++ [';'])
      | _ => none
    else none
  else none

/-- `transformPropTypes`: insert the `prop-types` default import after the
first `import React...;` statement when missing, and replace every
`React.PropTypes` with `PropTypes`. -/
def transformPropTypes (fileName content : String) : String × List String :=
  if strContains content "React.PropTypes" then
    let t :=
      if !(strContains content "import PropTypes from \x27prop-types\x27") then
        match firstMatch importReactMatchAt content.data with
        | some m =>
          replaceFirstSub m (m ++ "\nimport PropTypes from \x27prop-types\x27;".data)
            content.data
        | none => content.data
      else content.data
    (String.mk (replaceAllSub "React.PropTypes".data "PropTypes".data t),
      [fileName ++ ": Migrated React.PropTypes to prop-types package"])
  else (content, [])

/-- `transformReactFC`: advisory only, never modifies content. -/
def transformReactFC (fileName content : String) : List String :=
  if strContains content "React.FC" || strContains content "React.FunctionComponent" then
    [fileName ++ ": Consider replacing React.FC with explicit props typing"]
  else []

/-- Rules 2-5 of `transformFile`, applied after the (conditionally run)
render-API rule, on the accumulated content.  Returns the transformed
content, the fix entries and the issue entries in push order. -/
def rulesAfterRender (fileName content : String) : String × List String × List String :=
  let r2 := transformLifecycleMethods fileName content
  let i3 := transformEventHandlers fileName r2.1
  let r4 := transformPropTypes fileName r2.1
  let i5 := transformReactFC fileName r4.1
  (r4.1, r2.2 ++ r4.2, i3 ++ i5)

/-- The pure content transformation of `transformFile`: the render-API
rule runs only when `targetVersion >= '18'` (JavaScript string
comparison), then rules 2-5 run on the accumulated output. -/
def transformFileContent (tv fileName content : String) : String × List String × List String :=
  let r1 := if jsStrGe tv "18" then transformReactDOMRender fileName content
            else (content, [])
  let rest := rulesAfterRender fileName r1.1
  (rest.1, r1.2 ++ rest.2.1, rest.2.2)

/-- `transformFile` including its write-back bookkeeping: in a real run a
changed file is persisted and `Transformed <file>` is logged; in a dry run
the file is left as read and `Would transform <file> (dry run)` is logged;
an unchanged file produces no write-back entry in either mode. -/
def transformFilePhase (dry : Bool) (tv : String) (file : String × String) :
    (String × String) × List String × List String :=
  let r := transformFileContent tv file.1 file.2
  if r.1 ≠ file.2 then
    if dry then
      ((file.1, file.2), r.2.1 ++ ["Would transform " ++ file.1 ++ " (dry run)"], r.2.2)
    else
      ((file.1, r.1), r.2.1 ++ ["Transformed " ++ file.1], r.2.2)
  else (file, r.2.1, r.2.2)

/-! ### Rule behaviour when the detector does not fire -/

theorem transformReactDOMRender_of_not (fileName content : String)
    (h : renderTest content = false) :
    transformReactDOMRender fileName content = (content, []) := by
  unfold transformReactDOMRender
  simp [h]

theorem transformLifecycleMethods_of_not (fileName content : String)
    (h1 : strContains content "componentWillMount" = false)
    (h2 : strContains content "componentWillReceiveProps" = false)
    (h3 : strContains content "componentWillUpdate" = false) :
    transformLifecycleMethods fileName content = (content, []) := by
  unfold transformLifecycleMethods
  unfold strContains at h1 h2 h3
  simp [h1, h2, h3]

theorem transformPropTypes_of_not (fileName content : String)
    (h : strContains content "React.PropTypes" = false) :
    transformPropTypes fileName content = (content, []) := by
  unfold transformPropTypes
  simp [h]

theorem transformEventHandlers_of_not (fileName content : String)
    (h : strContains content "SyntheticEvent" = false) :
    transformEventHandlers fileName content = [] := by
  unfold transformEventHandlers
  simp [h]

theorem transformReactFC_of_not (fileName content : String)
    (h1 : strContains content "React.FC" = false)
    (h2 : strContains content "React.FunctionComponent" = false) :
    transformReactFC fileName content = [] := by
  unfold transformReactFC
  simp [h1, h2]

/-! ## Claim C4 -/

/-- C4: the render-API rule is gated on `targetVersion >= '18'` — at
target 17 `transformFile` is exactly the remaining rules, so render calls
are never rewritten — and at target 18, content with the renderer's
default-export import and two matched render calls has the import
rewritten to the `createRoot` import, each call replaced by the
create-root-then-render pair, and exactly one fix entry logged for the
file (not one per call). -/
theorem c4_render_rule :
    (∀ fileName content,
      transformFileContent "17" fileName content = rulesAfterRender fileName content) ∧
    transformFileContent "18" "index.js"
        "import ReactDOM from \x27react-dom\x27;\nReactDOM.render(<App />, rootEl);\nReactDOM.render(<Other />, el2);\n"
      = ("import \x7b createRoot \x7d from \x27react-dom/client\x27;\nconst root = createRoot(rootEl);\nroot.render(<App />);\nconst root = createRoot(el2);\nroot.render(<Other />);\n",
          ["index.js: Updated ReactDOM.render to createRoot API"], []) ∧
    transformFileContent "17" "index.js"
        "import ReactDOM from \x27react-dom\x27;\nReactDOM.render(<App />, rootEl);\nReactDOM.render(<Other />, el2);\n"
      = ("import ReactDOM from \x27react-dom\x27;\nReactDOM.render(<App />, rootEl);\nReactDOM.render(<Other />, el2);\n",
          [], []) := by
  refine ⟨fun fileName content => rfl, by decide, by decide⟩

/-! ## Claim C10 -/

/-- C10: on `componentWillReceiveProps()` the lifecycle rule's detector
(substring presence) fires and logs a fix entry, while the replacement
regex `componentWillReceiveProps\s*\([^)]+\)` — which requires a
non-empty argument list — matches nowhere, so the content is returned
unchanged. -/
theorem c10_wrp_detector_mismatch :
    transformLifecycleMethods "App.js" "componentWillReceiveProps()"
        = ("componentWillReceiveProps()",
            ["App.js: Replaced componentWillReceiveProps with componentDidUpdate"]) ∧
      strContains "componentWillReceiveProps()" "componentWillReceiveProps" = true ∧
      scanTest wrpMatchAt "componentWillReceiveProps()".data = false := by
  exact ⟨by decide, by decide, by decide⟩

/-! ## Claim C6 -/

/-- C6: a file whose content triggers no rule detector passes through the
pipeline unchanged, with no fix entries, no issue entries, and no
write-back entry (neither `Transformed` nor `Would transform`), in both
dry and real mode. -/
theorem c6_no_pattern_roundtrip (dry : Bool) (tv fileName content : String)
    (h1 : renderTest content = false)
    (h2 : strContains content "componentWillMount" = false)
    (h3 : strContains content "componentWillReceiveProps" = false)
    (h4 : strContains content "componentWillUpdate" = false)
    (h5 : strContains content "SyntheticEvent" = false)
    (h6 : strContains content "React.PropTypes" = false)
    (h7 : strContains content "React.FC" = false)
    (h8 : strContains content "React.FunctionComponent" = false) :
    transformFilePhase dry tv (fileName, content) = ((fileName, content), [], []) := by
  have hrest : rulesAfterRender fileName content = (content, [], []) := by
    unfold rulesAfterRender
    simp only [transformLifecycleMethods_of_not fileName content h2 h3 h4,
      transformEventHandlers_of_not fileName content h5,
      transformPropTypes_of_not fileName content h6,
      transformReactFC_of_not fileName content h7 h8]
    rfl
  have hcontent : transformFileContent tv fileName content = (content, [], []) := by
    unfold transformFileContent
    by_cases hge : jsStrGe tv "18"
    · simp only [hge, if_true, transformReactDOMRender_of_not fileName content h1, hrest]
      rfl
    · simp only [hge, if_false, Bool.false_eq_true, hrest]
      rfl
  unfold transformFilePhase
  simp only [hcontent]
  simp

/-- C6 (witness): a concrete pattern-free file. -/
theorem c6_no_pattern_roundtrip_witness :
    transformFilePhase true "18" ("App.js", "const x = 1;\nexport default x;\n")
      = (("App.js", "const x = 1;\nexport default x;\n"), [], []) := by
  exact c6_no_pattern_roundtrip true "18" "App.js" "const x = 1;\nexport default x;\n"
    (by decide) (by decide) (by decide) (by decide) (by decide) (by decide) (by decide)
    (by decide)

/-! ## Claim C5 -/

/-- C5 (counterexample): the claim is false as stated.  For the content
`componentWillReceiveProps()` the lifecycle rule's detector still fires on
the output of the first application (the replacement regex requires a
non-empty argument list, so the pattern survives the first pass), and the
second application of the pipeline logs a fresh fix entry instead of zero
fixes. -/
theorem c5_counterexample :
    (transformFileContent "18" "App.js"
        ((transformFileContent "18" "App.js" "componentWillReceiveProps()").1)).2.1
      = ["App.js: Replaced componentWillReceiveProps with componentDidUpdate"] ∧
    (transformFileContent "18" "App.js"
        ((transformFileContent "18" "App.js" "componentWillReceiveProps()").1)).2.1 ≠ [] := by
  exact ⟨by decide, by decide⟩

/-- C5 (amended): a second application of the pipeline produces no content
change and no fix entry from rules 1, 2 and 4 whenever the first
application's output no longer contains those rules' trigger patterns (no
render-regex match, none of the three lifecycle names, no
`React.PropTypes`).  This is the typical outcome but not universal: for
example a bare `componentWillReceiveProps` without arguments survives the
first pass and is re-logged. -/
theorem c5_second_pass_clean (tv fileName content : String)
    (h1 : renderTest (transformFileContent tv fileName content).1 = false)
    (h2 : strContains (transformFileContent tv fileName content).1
      "componentWillMount" = false)
    (h3 : strContains (transformFileContent tv fileName content).1
      "componentWillReceiveProps" = false)
    (h4 : strContains (transformFileContent tv fileName content).1
      "componentWillUpdate" = false)
    (h5 : strContains (transformFileContent tv fileName content).1
      "React.PropTypes" = false) :
    (transformFileContent tv fileName (transformFileContent tv fileName content).1).1
        = (transformFileContent tv fileName content).1 ∧
      (transformFileContent tv fileName
        (transformFileContent tv fileName content).1).2.1 = [] := by
  generalize hc : (transformFileContent tv fileName content).1 = c1 at h1 h2 h3 h4 h5 ⊢
  have hlife := transformLifecycleMethods_of_not fileName c1 h2 h3 h4
  have hprop := transformPropTypes_of_not fileName c1 h5
  have hrest : rulesAfterRender fileName c1
      = (c1, [], transformEventHandlers fileName c1 ++ transformReactFC fileName c1) := by
    unfold rulesAfterRender
    simp only [hlife, hprop]
    rfl
  have hr1 : (if jsStrGe tv "18" then transformReactDOMRender fileName c1
      else (c1, [])) = (c1, []) := by
    by_cases hge : jsStrGe tv "18"
    · rw [if_pos hge, transformReactDOMRender_of_not fileName c1 h1]
    · rw [if_neg hge]
  have hfull : transformFileContent tv fileName c1
      = (c1, [], transformEventHandlers fileName c1 ++ transformReactFC fileName c1) := by
    unfold transformFileContent
    simp only [hr1, hrest]
    rfl
  exact ⟨by rw [hfull], by rw [hfull]⟩

/-- C5 (witness): the amendment applied to a file that the first pass
genuinely transforms and then leaves fixed. -/
theorem c5_second_pass_clean_witness :
    (transformFileContent "18" "App.js"
        ((transformFileContent "18" "App.js" "componentWillMount();").1)).1
      = (transformFileContent "18" "App.js" "componentWillMount();").1 ∧
    (transformFileContent "18" "App.js"
        ((transformFileContent "18" "App.js" "componentWillMount();").1)).2.1 = [] := by
  exact c5_second_pass_clean "18" "App.js" "componentWillMount();"
    (by decide) (by decide) (by decide) (by decide) (by decide)

/-! ## Migration runs over explicit project state

The orchestration of `migrate`: `analyzeProject` (precondition checks),
`updateDependencies` (manifest write and `npm install`, logged), then
`transformCode` (per-file rewrite and write-back).  The installer is
external; `installErr = none` models a successful `npm install`, `some e`
a failure whose message is `e`.  Source files are an ordered list of
`(name, content)` pairs with distinct names, as produced by the directory
traversal; each file is read, transformed and possibly written back in
place, so files do not affect one another. -/

/-- On-disk project state: the manifest (if the file exists) and the
discovered source files. -/
structure ProjectState where
  packageJson : Option Manifest
  files : List (String × String)
deriving DecidableEq

/-- Result of the phases that run after a successful analyze: final
on-disk manifest, final on-disk files, fixes and issues. -/
structure RunResult where
  manifest : Manifest
  files : List (String × String)
  fixes : List String
  issues : List String
deriving DecidableEq

/-- The `updateDependencies` phase.  A real run writes the updated
manifest, logs `Updated package.json...`, runs `npm install` and logs its
outcome; a dry run leaves the manifest file untouched and logs
`Would update package.json...`. -/
def depsPhase (dry : Bool) (installErr : Option String) (tv : String) (mf : Manifest) :
    Manifest × List String × List String :=
  if dry then
    (mf, ["Would update package.json with new React versions (dry run)"], [])
  else
    match installErr with
    | none =>
      (updateDependenciesManifest tv mf,
        ["Updated package.json with new React versions", "Installed updated dependencies"],
        [])
    | some e =>
      (updateDependenciesManifest tv mf,
        ["Updated package.json with new React versions"],
        ["Failed to install dependencies: " ++ e])

/-- The `transformCode` phase: each discovered file through
`transformFile`, in order. -/
def transformPhase (dry : Bool) (tv : String) :
    List (String × String) → List (String × String) × List String × List String
  | [] => ([], [], [])
  | f :: rest =>
    let r := transformFilePhase dry tv f
    let rr := transformPhase dry tv rest
    (r.1 :: rr.1, r.2.1 ++ rr.2.1, r.2.2 ++ rr.2.2)

/-- The migration phases that run after `analyzeProject` succeeds. -/
def migrationRun (dry : Bool) (installErr : Option String) (tv : String)
    (mf : Manifest) (files : List (String × String)) : RunResult :=
  let d := depsPhase dry installErr tv mf
  let t := transformPhase dry tv files
  ⟨d.1, t.1, d.2.1 ++ t.2.1, d.2.2 ++ t.2.2⟩

/-- `migrate`: `analyzeProject` throws on a missing manifest or a
non-truthy `react` entry (the error is caught and the process exits
non-zero, leaving the state untouched); otherwise the phases run.
`migrate` itself performs no validation of the target version. -/
def migrate (tv : String) (dry : Bool) (installErr : Option String) (st : ProjectState) :
    Except String (ProjectState × List String × List String) :=
  match st.packageJson with
  | none => Except.error "package.json not found. Are you in a React project?"
  | some mf =>
    if analyzeAccepts mf then
      Except.ok
        ({ packageJson := some (migrationRun dry installErr tv mf st.files).manifest,
           files := (migrationRun dry installErr tv mf st.files).files },
         (migrationRun dry installErr tv mf st.files).fixes,
         (migrationRun dry installErr tv mf st.files).issues)
    else Except.error "React not found in dependencies"

/-- The default CLI command (`program.action`): the only target-version
validation in the tool, performed before `migrate` is invoked. -/
def cliMain (tv : String) (dry : Bool) (installErr : Option String) (st : ProjectState) :
    Except String (ProjectState × List String × List String) :=
  if (["17", "18", "19"] : List String).contains tv then migrate tv dry installErr st
  else Except.error "Unsupported target version. Use 17, 18, or 19"

/-! ## Claim C2 -/

/-- C2 (counterexample): the claim is false as stated.  The migration
operation itself performs no target-version validation: invoked directly
with the out-of-set version `"16"` on a manifest holding `react`, it does
not fail — it completes and re-pins `react` to `"^16"`, mutating the
manifest.  (Only the default CLI command validates the version; the
`check` command forwards any version to `migrate`.) -/
theorem c2_counterexample :
    (["17", "18", "19"] : List String).contains "16" = false ∧
    migrate "16" false none
        { packageJson := some { dependencies := [("react", "^16.0.0")], devDependencies := [] },
          files := [] }
      = Except.ok
          ({ packageJson := some { dependencies := [("react", "^16")], devDependencies := [] },
             files := [] },
           ["Updated package.json with new React versions", "Installed updated dependencies"],
           []) := by
  exact ⟨by decide, rfl⟩

/-- C2 (amended): the default CLI command rejects a target version outside
17/18/19 before invoking the migration, and `migrate` fails — returning
an error and no new state — on a missing manifest or a manifest without a
truthy `react` entry; but the migration operation itself performs no
target-version validation, so an out-of-set version that reaches `migrate`
directly (e.g. through the `check` command) proceeds. -/
theorem c2_validation_boundary :
    (∀ tv dry installErr st, (["17", "18", "19"] : List String).contains tv = false →
      cliMain tv dry installErr st
        = Except.error "Unsupported target version. Use 17, 18, or 19") ∧
    (∀ tv dry installErr files,
      migrate tv dry installErr { packageJson := none, files := files }
        = Except.error "package.json not found. Are you in a React project?") ∧
    (∀ tv dry installErr mf files, analyzeAccepts mf = false →
      migrate tv dry installErr { packageJson := some mf, files := files }
        = Except.error "React not found in dependencies") := by
  refine ⟨?_, ?_, ?_⟩
  · intro tv dry installErr st h
    unfold cliMain
    rw [h]
    rfl
  · intro tv dry installErr files
    rfl
  · intro tv dry installErr mf files h
    unfold migrate
    simp [h]

/-- C2 (witness): the three boundary cases at concrete inputs. -/
theorem c2_validation_boundary_witness :
    cliMain "16" false none
        { packageJson := some { dependencies := [("react", "^16.0.0")], devDependencies := [] },
          files := [] }
      = Except.error "Unsupported target version. Use 17, 18, or 19" ∧
    migrate "18" false none { packageJson := none, files := [] }
      = Except.error "package.json not found. Are you in a React project?" ∧
    migrate "18" false none
        { packageJson := some { dependencies := [("lodash", "1.0.0")], devDependencies := [] },
          files := [] }
      = Except.error "React not found in dependencies" := by
  refine ⟨c2_validation_boundary.1 "16" false none _ (by decide), ?_, ?_⟩
  · exact c2_validation_boundary.2.1 "18" false none []
  · exact c2_validation_boundary.2.2 "18" false none _ [] (by decide)

/-! ## Claim C3 -/

/-- Correspondence of a dry-run log entry with its real-run counterpart:
identical, or the `would`-phrased variant of the same action. -/
inductive WouldMatch : String → String → Prop
  | same (s : String) : WouldMatch s s
  | upd : WouldMatch "Would update package.json with new React versions (dry run)"
      "Updated package.json with new React versions"
  | transf (f : String) :
      WouldMatch ("Would transform " ++ f ++ " (dry run)") ("Transformed " ++ f)

theorem forall₂_wouldMatch_refl (l : List String) : List.Forall₂ WouldMatch l l := by
  induction l with
  | nil => exact List.Forall₂.nil
  | cons x t ih => exact List.Forall₂.cons (WouldMatch.same x) ih

theorem forall₂_append_pair {α β : Type} {R : α → β → Prop}
    {l₁ u₁ : List α} {l₂ u₂ : List β}
    (h₁ : List.Forall₂ R l₁ l₂) (h₂ : List.Forall₂ R u₁ u₂) :
    List.Forall₂ R (l₁ ++ u₁) (l₂ ++ u₂) := by
  induction h₁ with
  | nil => exact h₂
  | cons hr _ ih => exact List.Forall₂.cons hr ih

/-- Per-file correspondence between a dry and a real transform pass: the
dry pass leaves files as read, produces the same issues, and its fix
entries pairwise correspond (rule fixes identical, write-back entries in
`would` phrasing). -/
theorem transformPhase_correspond (tv : String) :
    ∀ files : List (String × String),
      (transformPhase true tv files).1 = files ∧
      (transformPhase true tv files).2.2 = (transformPhase false tv files).2.2 ∧
      List.Forall₂ WouldMatch (transformPhase true tv files).2.1
        (transformPhase false tv files).2.1 := by
  intro files
  induction files with
  | nil => exact ⟨rfl, rfl, List.Forall₂.nil⟩
  | cons f rest ih =>
    have hstep :
        (transformFilePhase true tv f).1 = f ∧
        (transformFilePhase true tv f).2.2 = (transformFilePhase false tv f).2.2 ∧
        List.Forall₂ WouldMatch (transformFilePhase true tv f).2.1
          (transformFilePhase false tv f).2.1 := by
      by_cases hch : (transformFileContent tv f.1 f.2).1 ≠ f.2
      · have ht : transformFilePhase true tv f
            = ((f.1, f.2),
               (transformFileContent tv f.1 f.2).2.1
                 ++ ["Would transform " ++ f.1 ++ " (dry run)"],
               (transformFileContent tv f.1 f.2).2.2) := by
          unfold transformFilePhase
          rw [if_pos hch]
          rfl
        have hf : transformFilePhase false tv f
            = ((f.1, (transformFileContent tv f.1 f.2).1),
               (transformFileContent tv f.1 f.2).2.1 ++ ["Transformed " ++ f.1],
               (transformFileContent tv f.1 f.2).2.2) := by
          unfold transformFilePhase
          rw [if_pos hch]
          rfl
        refine ⟨by rw [ht], by rw [ht, hf], ?_⟩
        rw [ht, hf]
        exact forall₂_append_pair (forall₂_wouldMatch_refl _)
          (List.Forall₂.cons (WouldMatch.transf f.1) List.Forall₂.nil)
      · have ht : transformFilePhase true tv f
            = (f, (transformFileContent tv f.1 f.2).2.1,
               (transformFileContent tv f.1 f.2).2.2) := by
          unfold transformFilePhase
          rw [if_neg hch]
        have hf : transformFilePhase false tv f
            = (f, (transformFileContent tv f.1 f.2).2.1,
               (transformFileContent tv f.1 f.2).2.2) := by
          unfold transformFilePhase
          rw [if_neg hch]
        refine ⟨by rw [ht], by rw [ht, hf], ?_⟩
        rw [ht, hf]
        exact forall₂_wouldMatch_refl _
    have hcons : ∀ dry : Bool, transformPhase dry tv (f :: rest)
        = ((transformFilePhase dry tv f).1 :: (transformPhase dry tv rest).1,
           (transformFilePhase dry tv f).2.1 ++ (transformPhase dry tv rest).2.1,
           (transformFilePhase dry tv f).2.2 ++ (transformPhase dry tv rest).2.2) :=
      fun _ => rfl
    rw [hcons true, hcons false]
    refine ⟨?_, ?_, ?_⟩
    · simp only [hstep.1, ih.1]
    · simp only [hstep.2.1, ih.2.1]
    · exact forall₂_append_pair hstep.2.2 ih.2.2

/-- C3 (counterexample): the claim is false as stated.  On a project with
a `react` manifest and no source files, a real run logs two fix entries
(`Updated package.json...` then `Installed updated dependencies`) while
the dry run logs a single `Would update package.json... (dry run)` entry:
the dependency-installation entry has no dry-run counterpart, so the logs
are not equivalent entry-for-entry modulo `would` phrasing. -/
theorem c3_counterexample :
    (migrationRun false none "18"
        { dependencies := [("react", "^16.0.0")], devDependencies := [] } []).fixes
      = ["Updated package.json with new React versions", "Installed updated dependencies"] ∧
    (migrationRun true none "18"
        { dependencies := [("react", "^16.0.0")], devDependencies := [] } []).fixes
      = ["Would update package.json with new React versions (dry run)"] ∧
    ¬ List.Forall₂ WouldMatch
        (migrationRun true none "18"
          { dependencies := [("react", "^16.0.0")], devDependencies := [] } []).fixes
        (migrationRun false none "18"
          { dependencies := [("react", "^16.0.0")], devDependencies := [] } []).fixes := by
  refine ⟨rfl, rfl, ?_⟩
  intro h
  have hl := List.Forall₂.length_eq h
  exact absurd hl (by decide)

/-- C3 (amended): a dry run leaves the manifest and every source file
unchanged and computes the same per-file issues and corresponding per-file
fixes (write-back entries in `would` phrasing) as a real run; the logs
differ only in the dependency phase, where a real run's
`Updated package.json...` appears as `Would update package.json... (dry
run)` and the installer outcome (`Installed updated dependencies`, or a
`Failed to install dependencies` issue) is logged in real runs only. -/
theorem c3_dry_run_invariance (tv : String) (installErr : Option String)
    (mf : Manifest) (files : List (String × String)) :
    migrationRun true installErr tv mf files
        = ⟨mf, files,
            "Would update package.json with new React versions (dry run)"
              :: (transformPhase true tv files).2.1,
            (transformPhase true tv files).2.2⟩ ∧
    migrationRun false none tv mf files
        = ⟨updateDependenciesManifest tv mf, (transformPhase false tv files).1,
            "Updated package.json with new React versions"
              :: "Installed updated dependencies" :: (transformPhase false tv files).2.1,
            (transformPhase false tv files).2.2⟩ ∧
    (∀ e, migrationRun false (some e) tv mf files
        = ⟨updateDependenciesManifest tv mf, (transformPhase false tv files).1,
            "Updated package.json with new React versions"
              :: (transformPhase false tv files).2.1,
            ("Failed to install dependencies: " ++ e)
              :: (transformPhase false tv files).2.2⟩) ∧
    List.Forall₂ WouldMatch (transformPhase true tv files).2.1
      (transformPhase false tv files).2.1 ∧
    (transformPhase true tv files).2.2 = (transformPhase false tv files).2.2 ∧
    (transformPhase true tv files).1 = files := by
  have hcorr := transformPhase_correspond tv files
  refine ⟨?_, ?_, ?_, hcorr.2.2, hcorr.2.1, hcorr.1⟩
  · simp [migrationRun, depsPhase, hcorr.1]
  · simp [migrationRun, depsPhase]
  · intro e
    simp [migrationRun, depsPhase]

/-! ## Peer-dependency compatibility (extended variant:
`isVersionCompatible`, `analyzePeerDependencies`) -/

/-- Numeric value of a decimal digit run. -/
def digitsVal (d : List Char) : Nat :=
  d.foldl (fun n c => n * 10 + (c.toNat - 48)) 0

/-- JavaScript `parseInt` on the decimal inputs arising from version
strings: skip leading whitespace, optional sign, then a run of decimal
digits; `none` models the result `NaN` when no digit is found. -/
def parseIntJS (s : List Char) : Option Int :=
  match s.dropWhile isJsWS with
  | '-' :: r =>
    let d := r.takeWhile Char.isDigit
    if d.isEmpty then none else some (-(digitsVal d : Int))
  | '+' :: r =>
    let d := r.takeWhile Char.isDigit
    if d.isEmpty then none else some (digitsVal d)
  | r =>
    let d := r.takeWhile Char.isDigit
    if d.isEmpty then none else some (digitsVal d)

/-- `version.replace(/[\^~]/, '')`: the regex is not global, so only the
first `^` or `~` anywhere in the string is removed. -/
def removeFirstCaretTilde : List Char → List Char
  | [] => []
  | c :: r => if c == '^' || c == '~' then r else c :: removeFirstCaretTilde r

/-- The major number the source computes:
`parseInt(v.replace(/[\^~]/, '').split('.')[0] || '0')`, with `none` for
`NaN`. -/
def majorOf (v : String) : Option Int :=
  parseIntJS
    (let h := (removeFirstCaretTilde v.data).takeWhile (fun c => !(c == '.'))
     if h.isEmpty then ['0'] else h)

/-- `isVersionCompatible`: `major1 === major2`.  JavaScript `NaN`
(modelled by `none`) compares unequal to everything, including itself. -/
def isVersionCompatible (v1 v2 : String) : Bool :=
  match majorOf v1, majorOf v2 with
  | some a, some b => a == b
  | _, _ => false

/-- Following the claim's wording, for comparison with the source: strip a
leading `^` or `~`, parse the leading integer before the first `.`
treating a non-numeric or missing version as major `0`, and compare the
two majors for equality. -/
def specMajorOf (v : String) : Int :=
  match parseIntJS
      ((match v.data with
        | c :: r => if c == '^' || c == '~' then r else c :: r
        | [] => []).takeWhile (fun c => !(c == '.'))) with
  | some n => n
  | none => 0

/-- The claim's version of the compatibility predicate. -/
def specIsVersionCompatible (v1 v2 : String) : Bool :=
  specMajorOf v1 == specMajorOf v2

/-- `{...dependencies, ...devDependencies}` as an ordered name list. -/
def mergedDepNames (mf : Manifest) : List String :=
  mf.dependencies.map Prod.fst
    ++ (mf.devDependencies.map Prod.fst).filter
        (fun k => !((mf.dependencies.map Prod.fst).contains k))

/-- `analyzePeerDependencies`: for every dependency whose name contains
`react` but is neither `react` nor `react-dom`, look up the locally
installed package's declared peer requirement on `react`
(`peerReactOf`, abstracting `node_modules/<pkg>/package.json`; `none`
covers a missing installation, a missing peer field, and a read/parse
error, all silently skipped) and collect an issue block when the majors
mismatch.  The manifest itself is not touched. -/
def analyzePeerDependencies (tv : String) (mf : Manifest)
    (peerReactOf : String → Option String) : List String :=
  let conflicts := (mergedDepNames mf).filterMap (fun pkg =>
    if strContains pkg "react" && !(pkg == "react") && !(pkg == "react-dom") then
      match peerReactOf pkg with
      | some peer =>
        if !(isVersionCompatible ("^" ++ tv) peer) then
          some (pkg ++ " requires React " ++ peer ++ " but we\x27re upgrading to ^" ++ tv)
        else none
      | none => none
    else none)
  if conflicts.isEmpty then []
  else "Peer dependency conflicts detected:" :: conflicts.map (fun c => "  - " ++ c)

/-! ## Claim C8 -/

/-- C8 (counterexample): the claim is false as stated.  On two non-numeric
version ranges such as `>=17`, the claim's reading (non-numeric treated as
major 0, equal majors → true) yields `true`, but the source computes
`parseInt(...) === parseInt(...)` with both sides `NaN`, and `NaN === NaN`
is `false`. -/
theorem c8_counterexample :
    isVersionCompatible ">=17" ">=17" = false ∧
      specIsVersionCompatible ">=17" ">=17" = true := by
  exact ⟨by decide, by decide⟩

/-- C8 (amended): `isVersionCompatible` strips the first `^` or `~`,
parses the leading integer before the first `.` (an empty lead falls back
to `'0'`), and returns true iff both sides parse to a number and the
numbers are equal — a side that fails to parse (JavaScript `NaN`)
compares unequal to everything, including another unparsable side.  A
major mismatch against an installed react-named package's peer requirement
contributes the issue line naming the package and both versions, inside
the conflicts block appended by `analyzePeerDependencies`, which never
touches the manifest. -/
theorem c8_major_compare :
    (∀ v1 v2, isVersionCompatible v1 v2 = true ↔
      ∃ n, majorOf v1 = some n ∧ majorOf v2 = some n) ∧
    (∀ tv mf peerReactOf pkg peer,
      pkg ∈ mergedDepNames mf →
      (strContains pkg "react" && !(pkg == "react") && !(pkg == "react-dom")) = true →
      peerReactOf pkg = some peer →
      isVersionCompatible ("^" ++ tv) peer = false →
      ("  - " ++ (pkg ++ " requires React " ++ peer ++ " but we\x27re upgrading to ^" ++ tv))
        ∈ analyzePeerDependencies tv mf peerReactOf) := by
  constructor
  · intro v1 v2
    unfold isVersionCompatible
    cases h1 : majorOf v1 with
    | none => simp
    | some a =>
      cases h2 : majorOf v2 with
      | none => simp
      | some b =>
        simp only [beq_iff_eq, Option.some.injEq]
        constructor
        · intro h
          exact ⟨a, rfl, h.symm⟩
        · rintro ⟨n, rfl, hb⟩
          exact hb.symm
  · intro tv mf peerReactOf pkg peer hmem hname hpeer hbad
    unfold analyzePeerDependencies
    have hline : (fun pkg =>
        if strContains pkg "react" && !(pkg == "react") && !(pkg == "react-dom") then
          match peerReactOf pkg with
          | some peer =>
            if !(isVersionCompatible ("^" ++ tv) peer) then
              some (pkg ++ " requires React " ++ peer ++ " but we\x27re upgrading to ^" ++ tv)
            else none
          | none => none
        else none) pkg
        = some (pkg ++ " requires React " ++ peer ++ " but we\x27re upgrading to ^" ++ tv) := by
      simp only [hname, if_true, hpeer, hbad]
      rfl
    have hconf : (pkg ++ " requires React " ++ peer ++ " but we\x27re upgrading to ^" ++ tv)
        ∈ (mergedDepNames mf).filterMap (fun pkg =>
          if strContains pkg "react" && !(pkg == "react") && !(pkg == "react-dom") then
            match peerReactOf pkg with
            | some peer =>
              if !(isVersionCompatible ("^" ++ tv) peer) then
                some (pkg ++ " requires React " ++ peer ++ " but we\x27re upgrading to ^" ++ tv)
              else none
            | none => none
          else none) :=
      List.mem_filterMap.mpr ⟨pkg, hmem, hline⟩
    have hne : ¬ ((mergedDepNames mf).filterMap (fun pkg =>
        if strContains pkg "react" && !(pkg == "react") && !(pkg == "react-dom") then
          match peerReactOf pkg with
          | some peer =>
            if !(isVersionCompatible ("^" ++ tv) peer) then
              some (pkg ++ " requires React " ++ peer ++ " but we\x27re upgrading to ^" ++ tv)
            else none
          | none => none
        else none)).isEmpty = true := by
      intro he
      rw [List.isEmpty_iff] at he
      rw [he] at hconf
      cases hconf
    simp only [hne, if_false, Bool.false_eq_true]
    exact List.mem_cons_of_mem _ (List.mem_map.mpr ⟨_, hconf, rfl⟩)

/-- C8 (witness): the amended claim at concrete versions and a concrete
installed package. -/
theorem c8_major_compare_witness :
    isVersionCompatible "^18" "^17.0.0" = false ∧
    ("  - " ++ ("react-redux" ++ " requires React " ++ "^17.0.0"
        ++ " but we\x27re upgrading to ^" ++ "18"))
      ∈ analyzePeerDependencies "18"
          { dependencies := [("react-redux", "^7.0.0")], devDependencies := [] }
          (fun p => if p == "react-redux" then some "^17.0.0" else none) := by
  refine ⟨by decide, ?_⟩
  exact c8_major_compare.2 "18"
    { dependencies := [("react-redux", "^7.0.0")], devDependencies := [] }
    (fun p => if p == "react-redux" then some "^17.0.0" else none)
    "react-redux" "^17.0.0" (by decide) (by decide) (by decide) (by decide)

end KdMigrate
